import Mathlib

/-
Verification of the accumulation-cache / pagination core of the GitHub
issues data-table (GitHubIssuesDataTable in src/unnamed/part_008 lines
207-612, textually shared with src/components/DataTable.tsx lines
145-493, and the fetch layer in src/hooks/useGitHubIssues.ts and
src/unnamed/part_006).

Issue records are modelled with exactly the fields the core logic reads:
the numeric id (de-duplication), and the lowercase-searchable text fields
(title, user.login, label names).  Strings searched by the projection are
modelled as lists of characters so that the case-insensitive substring
test of JavaScript String.prototype.includes can be given directly.
-/

structure Issue where
  id : Nat
  title : List Char
  login : List Char
  labels : List (List Char)
deriving DecidableEq, Repr

/-- Lowercasing of a JavaScript string (String.prototype.toLowerCase),
character by character. -/
def lowerChars (s : List Char) : List Char := s.map Char.toLower

/-- Helper for substring search: does the candidate occurrence of the
needle start right here? -/
def startsWithChars : List Char → List Char → Bool
  | [], _ => true
  | _ :: _, [] => false
  | a :: as, b :: bs => a == b && startsWithChars as bs

/-- JavaScript String.prototype.includes: the needle occurs contiguously
somewhere in the haystack. -/
def containsChars (hay needle : List Char) : Bool :=
  match hay with
  | [] => needle.isEmpty
  | _ :: rest => startsWithChars needle hay || containsChars rest needle

/-- Search predicate of the filteredData useMemo (part_008 lines 341-345):
title, author login, or any label name contains the (already lowercased)
search term. -/
def issueMatches (searchTerm : List Char) (issue : Issue) : Bool :=
  containsChars (lowerChars issue.title) searchTerm ||
  containsChars (lowerChars issue.login) searchTerm ||
  issue.labels.any (fun label => containsChars (lowerChars label) searchTerm)

/-- Client-side projection of the accumulated data (part_008 lines
333-349): empty data short-circuits to []; an empty (falsy) search value
skips filtering; otherwise the search term is lowercased once and the
accumulated list is filtered. -/
def filteredData (allFetchedData : List Issue) (debouncedSearchValue : List Char) : List Issue :=
  if allFetchedData.isEmpty then []
  else if debouncedSearchValue.isEmpty then allFetchedData
  else allFetchedData.filter (issueMatches (lowerChars debouncedSearchValue))

/-- Spec-side matcher, written from the words of spec section 4.2: a
record matches when its title, author handle, or any label name contains
the search text as a case-insensitive substring (logical OR across the
three fields). -/
def specMatches (searchText : List Char) (record : Issue) : Bool :=
  containsChars (lowerChars record.title) (lowerChars searchText) ||
  containsChars (lowerChars record.login) (lowerChars searchText) ||
  record.labels.any (fun name => containsChars (lowerChars name) (lowerChars searchText))

/-- Spec-side projection, written from the words of spec section 4.2: if
searchText is empty, the accumulated records are returned unchanged;
otherwise exactly the matching records in the same relative order. -/
def projectSpec (accumulatedRecords : List Issue) (searchText : List Char) : List Issue :=
  if searchText.isEmpty then accumulatedRecords
  else accumulatedRecords.filter (specMatches searchText)

/-- Accumulation effect merge (part_008 lines 270-283): a non-empty
server response replaces everything on server page 1 and is appended
(keeping only records whose id is not already present) on later pages;
an empty response leaves the previous data untouched. -/
def mergeServerData (prevData serverData : List Issue) (currentServerPage : Nat) : List Issue :=
  if 0 < serverData.length then
    if currentServerPage = 1 then
      serverData
    else
      let existingIds := prevData.map Issue.id
      prevData ++ serverData.filter (fun item => !(existingIds.contains item.id))
  else prevData

/-- Folding a sequence of server pages through the accumulation effect,
page n arriving with currentServerPage = n. -/
def mergeRun : List Issue → Nat → List (List Issue) → List Issue
  | acc, _, [] => acc
  | acc, n, p :: ps => mergeRun (mergeServerData acc p n) (n + 1) ps

/-- All pages of a run merged in order, starting from the page-1
replacement. -/
def accumulatePages (pages : List (List Issue)) : List Issue :=
  mergeRun [] 1 pages

/-- Local page count, Math.ceil(rowCount / pageSize) as computed by
table.getPageCount over the filtered rows. -/
def pageCount (rowCount pageSize : Nat) : Nat :=
  (rowCount + pageSize - 1) / pageSize

/-- checkForMoreData (part_008 lines 567-589): bail out while a request
is in flight, then trigger a fetch when the 1-based current local page is
at least totalPages - 1 and the current data length is a positive exact
multiple of the server page size 100. -/
def checkForMoreData (isFetchingMore loading isFetching : Bool)
    (currentDataLength pageIndex pageSize : Nat) : Bool :=
  if isFetchingMore || loading || isFetching then false
  else
    let currentPage := pageIndex + 1
    let totalPages := pageCount currentDataLength pageSize
    let itemsInCurrentServerPage := currentDataLength % 100
    let isLastServerPageFull := (itemsInCurrentServerPage == 0) && decide (0 < currentDataLength)
    decide ((currentPage : Int) ≥ (totalPages : Int) - 1) && isLastServerPageFull

/-- Position-restore effect after a fetch-more merge (part_008 lines
527-540): when data is present, the server page is beyond 1, no fetch is
in flight, and the saved page is a positive valid index, the table is
sent back to the saved page; otherwise the current index is left as is. -/
def restorePageAfterMerge (allDataLength currentServerPage : Nat) (isFetchingMore : Bool)
    (savedPage totalPages pageIndex : Nat) : Nat :=
  if 0 < allDataLength ∧ 1 < currentServerPage ∧ isFetchingMore = false ∧
     0 < savedPage ∧ savedPage < totalPages then savedPage
  else pageIndex

/-- handlePageChange (part_008 lines 605-612): a requested 1-based page
moves the 0-based index only when the page count is positive and the
request is within 1..totalPages. -/
def handlePageChange (newPage : Int) (totalPages pageIndex : Nat) : Nat :=
  if 1 ≤ newPage ∧ newPage ≤ (totalPages : Int) ∧ 0 < totalPages then (newPage - 1).toNat
  else pageIndex

/-- Retry predicate of the query options (src/hooks/useGitHubIssues.ts
lines 68-74), as written: an error whose status field is in 400..499 is
never retried; anything else, including an error whose status field is
absent (undefined compares false on both sides), is retried while
failureCount < 3.  On the request path the errors it receives come out
of handleApiError and never carry a status, so only the no-status branch
is ever exercised (see effectiveRetry). -/
def retryPredicate (failureCount : Nat) (status : Option Nat) : Bool :=
  match status with
  | some s => if 400 ≤ s ∧ s < 500 then false else decide (failureCount < 3)
  | none => decide (failureCount < 3)

/-- Retry delay of the query options (src/hooks/useGitHubIssues.ts line
75): Math.min(1000 * 2 ** attemptIndex, 30000), in milliseconds. -/
def retryDelay (attemptIndex : Nat) : Nat :=
  min (1000 * 2 ^ attemptIndex) 30000

/-- Retry decision of the exported but never-called retryRequest helper
(src/unnamed/part_006 lines 72-105): 4xx is rethrown without retry except
429, which is retried; everything else is retried. -/
def retryRequestRetriesOn (status : Option Nat) : Bool :=
  match status with
  | some s => if 400 ≤ s ∧ s < 500 then s == 429 else true
  | none => true

/-- Shape of an axios failure as handleApiError inspects it: the response
status when a response arrived (none on a network or setup error), the
rate-limit-remaining-zero header test used for 403, the original message,
and whether a request object is present (distinguishing a network error
from a request-setup error). -/
structure AxiosFailure where
  responseStatus : Option Nat
  rateLimitRemainingZero : Bool
  message : String
  hasRequest : Bool
deriving DecidableEq, Repr

/-- Shape of the value a JavaScript throw site hands to the caller: the
message, and the status property if one was set on it. -/
structure ThrownError where
  message : String
  status : Option Nat
deriving DecidableEq, Repr

/-- handleApiError (src/unnamed/part_003 lines 369-395), the wrapper that
getIssues applies to every failure before rethrowing: it switches on the
response status to pick a message, but every branch returns a plain new
Error, an object on which no status property is ever set, so the status
of the thrown error is none in all cases. -/
def handleApiError (failure : AxiosFailure) : ThrownError :=
  match failure.responseStatus with
  | some status =>
      if status = 403 then
        if failure.rateLimitRemainingZero then
          { message := "GitHub API rate limit exceeded. Please try again later.",
            status := none }
        else
          { message := "Access forbidden. Please check your GitHub token permissions.",
            status := none }
      else if status = 404 then
        { message := "Repository or resource not found.", status := none }
      else if status = 422 then
        { message := "Invalid request parameters.", status := none }
      else
        { message := "GitHub API error (" ++ toString status ++ "): " ++ failure.message,
          status := none }
  | none =>
      if failure.hasRequest then
        { message := "Network error. Please check your internet connection.",
          status := none }
      else
        { message := "Request error: " ++ failure.message, status := none }

/-- Retry decision actually taken on the request path: the queryFn of the
hook awaits githubIssuesService.getIssues, whose catch block rethrows
handleApiError of the failure (src/unnamed/part_003 lines 187-190, the
only call path; retryRequest is never invoked), and the retry option of
the query then reads the status field of that thrown error. -/
def effectiveRetry (failureCount : Nat) (failure : AxiosFailure) : Bool :=
  retryPredicate failureCount (handleApiError failure).status

/-
State machine of the mounted component (part_008 lines 207-612).  One
step of the machine runs, in declaration order, the effect bodies that
React re-executes in response to a discrete event (a server response
arriving, the filter key changing, a fetch-more trigger, a page-change
click, the clear-cache button), with ref mutations visible immediately
and scheduled state updates applied before the dependent effects of the
following commit.  The table page index is moved only by the calls this
component itself issues (table.setPageIndex).
-/

structure TableState where
  stateFilter : String
  searchText : String
  serverPage : Nat
  allData : List Issue
  dataCache : List (String × List Issue)
  pageCache : List (String × Nat)
  tablePageCache : List (String × Nat)
  fetchingMore : Bool
  pageIndex : Nat
  pageSize : Nat
  tablePageRef : Nat
deriving DecidableEq, Repr

/-- Association lookup, the read side of the plain-object caches:
the most recent binding of a key wins. -/
def lookupA {α : Type} (l : List (String × α)) (k : String) : Option α :=
  (l.find? (fun p => p.1 == k)).map (fun p => p.2)

/-- Association insert, the spread-update write side of the caches: a new
binding shadows any earlier one. -/
def insertA {α : Type} (k : String) (v : α) (l : List (String × α)) : List (String × α) :=
  (k, v) :: l

/-- Filter key of the current render (part_008 line 267). -/
def filterKey (s : TableState) : String :=
  s.stateFilter ++ "-" ++ s.searchText

/-- Cache-update effect (part_008 lines 289-308): when the accumulated
list is non-empty, write it, the current server page, and the tracked
table page under the current filter key. -/
def cacheUpdateEffect (s : TableState) : TableState :=
  if 0 < s.allData.length then
    { s with
      dataCache := insertA (filterKey s) s.allData s.dataCache,
      pageCache := insertA (filterKey s) s.serverPage s.pageCache,
      tablePageCache := insertA (filterKey s) s.tablePageRef s.tablePageCache }
  else s

/-- Reading of cachedServerPage with the JavaScript fallback
(cachedServerPage or 1): undefined and 0 both give 1. -/
def orOne : Option Nat → Nat
  | some n => if n = 0 then 1 else n
  | none => 1

/-- Reading of cachedTablePage with the JavaScript fallback
(cachedTablePage or 0): undefined and 0 both give 0. -/
def orZero : Option Nat → Nat
  | some n => n
  | none => 0

/-- Filter-change effect (part_008 lines 311-330): clear the fetch-more
flag, then either restore the cached entry of the current filter key (when
present and non-empty, the cachedData truthiness test folded into the
length test with a missing entry read as the empty list) or start fresh
at server page 1 with no data. -/
def restoreOnFilterChange (s : TableState) : TableState :=
  if 0 < ((lookupA s.dataCache (filterKey s)).getD []).length then
    { s with fetchingMore := false,
             allData := (lookupA s.dataCache (filterKey s)).getD [],
             serverPage := orOne (lookupA s.pageCache (filterKey s)),
             tablePageRef := orZero (lookupA s.tablePageCache (filterKey s)) }
  else
    { s with fetchingMore := false, serverPage := 1, allData := [], tablePageRef := 0 }

/-- Table page chosen by the cached-table-page restore effect (part_008
lines 543-555): with data present and a positive cached table page below
the page count, that cached page; otherwise the current index. -/
def restoredTablePageIndex (s : TableState) : Nat :=
  if 0 < s.allData.length then
    match lookupA s.tablePageCache (filterKey s) with
    | some t =>
        if 0 < t then
          if t < pageCount (filteredData s.allData s.searchText.data).length s.pageSize then t
          else s.pageIndex
        else s.pageIndex
    | none => s.pageIndex
  else s.pageIndex

/-- Cached-table-page restore effect (part_008 lines 543-555): its only
write is table.setPageIndex. -/
def restoreCachedTablePage (s : TableState) : TableState :=
  { s with pageIndex := restoredTablePageIndex s }

/-- Pagination-reset effect (part_008 lines 558-564): reset the table to
page 0 only when the data cache holds no entry for the current filter
key. -/
def resetOnNewFilter (s : TableState) : TableState :=
  if (lookupA s.dataCache (filterKey s)).isNone then
    { s with pageIndex := 0, tablePageRef := 0 }
  else s

/-- Accumulation effect (part_008 lines 270-286): merge the incoming
server response and clear the fetch-more flag. -/
def accumulateEffect (s : TableState) (serverData : List Issue) : TableState :=
  { s with allData := mergeServerData s.allData serverData s.serverPage,
           fetchingMore := false }

/-- Page-tracking effect (part_008 lines 520-524): when no fetch-more is
in flight, remember the current table page in the ref. -/
def trackTablePage (s : TableState) : TableState :=
  if s.fetchingMore = false then { s with tablePageRef := s.pageIndex } else s

/-- Position-restore effect applied to the machine state (part_008 lines
527-540). -/
def restoreAfterFetchMore (s : TableState) : TableState :=
  let tp := pageCount (filteredData s.allData s.searchText.data).length s.pageSize
  { s with pageIndex :=
      restorePageAfterMerge s.allData.length s.serverPage s.fetchingMore s.tablePageRef tp s.pageIndex }

/-- A server response for the active query arrives: the accumulation
effect runs, then (next commit, in declaration order) the cache-update,
page-tracking and position-restore effects. -/
def serverDataStep (s : TableState) (serverData : List Issue) : TableState :=
  restoreAfterFetchMore (trackTablePage (cacheUpdateEffect (accumulateEffect s serverData)))

/-- The filter key changes (state filter or debounced search text): the
render recomputes the key, then the effects reacting to it run in
declaration order, the cache-update effect (whose dependency array
includes filterKey) strictly before the filter-change restore effect,
followed by the cached-table-page restore and the pagination reset whose
guard reads the data-cache ref as just written. -/
def filterChangeStep (s : TableState) (newFilter newSearch : String) : TableState :=
  resetOnNewFilter (restoreCachedTablePage (restoreOnFilterChange
    (cacheUpdateEffect { s with stateFilter := newFilter, searchText := newSearch })))

/-- A fetch-more trigger (checkForMoreData, part_008 lines 567-589): when
the decision fires, save the current table page in the ref, raise the
fetch-more flag and request the next server page. -/
def fetchMoreStep (s : TableState) (loading isFetching : Bool) : TableState :=
  if checkForMoreData s.fetchingMore loading isFetching
      (filteredData s.allData s.searchText.data).length s.pageIndex s.pageSize then
    { s with tablePageRef := s.pageIndex, fetchingMore := true,
             serverPage := s.serverPage + 1 }
  else s

/-- A pagination-control click routed through handlePageChange. -/
def pageChangeStep (s : TableState) (newPage : Int) : TableState :=
  let tp := pageCount (filteredData s.allData s.searchText.data).length s.pageSize
  { s with pageIndex := handlePageChange newPage tp s.pageIndex }

/-- The clear-cache button (part_008 lines 698-708): every cache emptied,
server page back to 1, data cleared, table ref page zeroed. -/
def clearCacheStep (s : TableState) : TableState :=
  { s with dataCache := [], pageCache := [], tablePageCache := [],
           serverPage := 1, allData := [], tablePageRef := 0 }

/-- Initial state of a freshly mounted table: state filter all, empty
search, server page 1, nothing accumulated or cached, default local page
size 25. -/
def initState : TableState :=
  { stateFilter := "all", searchText := "", serverPage := 1, allData := [],
    dataCache := [], pageCache := [], tablePageCache := [],
    fetchingMore := false, pageIndex := 0, pageSize := 25, tablePageRef := 0 }

/-- States the mounted component can reach through any sequence of server
responses, filter-key changes, fetch-more triggers, page changes and
cache clears. -/
inductive Reachable : TableState → Prop
  | init : Reachable initState
  | serverArrives (s : TableState) (d : List Issue) :
      Reachable s → Reachable (serverDataStep s d)
  | filterChanges (s : TableState) (f q : String) :
      Reachable s → Reachable (filterChangeStep s f q)
  | fetchMore (s : TableState) (loading isFetching : Bool) :
      Reachable s → Reachable (fetchMoreStep s loading isFetching)
  | pageChanges (s : TableState) (n : Int) :
      Reachable s → Reachable (pageChangeStep s n)
  | clears (s : TableState) :
      Reachable s → Reachable (clearCacheStep s)

/-- Invariant of the data cache: every stored entry is a non-empty record
list. -/
def cacheOK (c : List (String × List Issue)) : Prop :=
  ∀ k v, lookupA c k = some v → v ≠ []

/-- A sample record, as a GitHub issue response would contain. -/
def issueA : Issue := { id := 1, title := [], login := [], labels := [] }

/-- A second sample record with a distinct id. -/
def issueB : Issue := { id := 2, title := [], login := [], labels := [] }

/-- A server page of n records with pairwise distinct ids. -/
def issuesN (n : Nat) : List Issue :=
  (List.range n).map (fun i => { id := i, title := [], login := [], labels := [] })

/-- Trace: the mounted table receives its first page-1 response (one
record) under the initial filter key all-. -/
def sOne : TableState := serverDataStep initState [issueA]

/-- Trace continued: the state filter is switched to open, a filter key
never seen before. -/
def sTwo : TableState := filterChangeStep sOne "open" ""

/-- Trace: page-1 response of 30 records under the key all-, then the
user moves to local page 2 (index 1). -/
def sBefore : TableState := pageChangeStep (serverDataStep initState (issuesN 30)) 2

/-- Trace continued: the state filter is switched to open, a filter key
never seen before. -/
def sAfter : TableState := filterChangeStep sBefore "open" ""

theorem lookupA_insertA {α : Type} (l : List (String × α)) (k k2 : String) (v : α) :
    lookupA (insertA k v l) k2 = if k = k2 then some v else lookupA l k2 := by
  unfold lookupA insertA
  by_cases h : k = k2
  · rw [if_pos h, List.find?_cons_of_pos]
    · rfl
    · simp [h]
  · rw [if_neg h, List.find?_cons_of_neg]
    simp [h]

theorem cacheOK_cacheUpdateEffect (s : TableState) (h : cacheOK s.dataCache) :
    cacheOK (cacheUpdateEffect s).dataCache := by
  unfold cacheUpdateEffect
  by_cases hl : 0 < s.allData.length
  · rw [if_pos hl]
    intro k v hkv
    have hkv2 : lookupA (insertA (filterKey s) s.allData s.dataCache) k = some v := hkv
    rw [lookupA_insertA] at hkv2
    split at hkv2
    · cases hkv2
      exact List.ne_nil_of_length_pos hl
    · exact h k v hkv2
  · rw [if_neg hl]
    exact h

theorem trackTablePage_dataCache (s : TableState) :
    (trackTablePage s).dataCache = s.dataCache := by
  unfold trackTablePage
  split <;> rfl

theorem restoreOnFilterChange_dataCache (s : TableState) :
    (restoreOnFilterChange s).dataCache = s.dataCache := by
  unfold restoreOnFilterChange
  split <;> rfl

theorem resetOnNewFilter_dataCache (s : TableState) :
    (resetOnNewFilter s).dataCache = s.dataCache := by
  unfold resetOnNewFilter
  split <;> rfl

theorem resetOnNewFilter_allData (s : TableState) :
    (resetOnNewFilter s).allData = s.allData := by
  unfold resetOnNewFilter
  split <;> rfl

theorem resetOnNewFilter_serverPage (s : TableState) :
    (resetOnNewFilter s).serverPage = s.serverPage := by
  unfold resetOnNewFilter
  split <;> rfl

theorem restoreCachedTablePage_dataCache (s : TableState) :
    (restoreCachedTablePage s).dataCache = s.dataCache := rfl

theorem restoreCachedTablePage_allData (s : TableState) :
    (restoreCachedTablePage s).allData = s.allData := rfl

theorem restoreCachedTablePage_serverPage (s : TableState) :
    (restoreCachedTablePage s).serverPage = s.serverPage := rfl

theorem restoreOnFilterChange_fresh (s : TableState)
    (h : (restoreOnFilterChange s).allData = []) :
    (restoreOnFilterChange s).serverPage = 1 := by
  unfold restoreOnFilterChange at h ⊢
  by_cases hlen : 0 < ((lookupA s.dataCache (filterKey s)).getD []).length
  · rw [if_pos hlen] at h
    have h2 : (lookupA s.dataCache (filterKey s)).getD [] = [] := h
    rw [h2] at hlen
    simp at hlen
  · rw [if_neg hlen]

theorem filterChangeStep_fresh (s : TableState) (f q : String)
    (h : (filterChangeStep s f q).allData = []) :
    (filterChangeStep s f q).serverPage = 1 := by
  unfold filterChangeStep at h ⊢
  rw [resetOnNewFilter_allData, restoreCachedTablePage_allData] at h
  rw [resetOnNewFilter_serverPage, restoreCachedTablePage_serverPage]
  exact restoreOnFilterChange_fresh _ h

theorem cacheOK_serverDataStep (s : TableState) (d : List Issue)
    (h : cacheOK s.dataCache) : cacheOK (serverDataStep s d).dataCache := by
  unfold serverDataStep restoreAfterFetchMore
  rw [trackTablePage_dataCache]
  exact cacheOK_cacheUpdateEffect _ h

theorem cacheOK_filterChangeStep (s : TableState) (f q : String)
    (h : cacheOK s.dataCache) : cacheOK (filterChangeStep s f q).dataCache := by
  unfold filterChangeStep
  rw [resetOnNewFilter_dataCache, restoreCachedTablePage_dataCache,
    restoreOnFilterChange_dataCache]
  exact cacheOK_cacheUpdateEffect _ h

theorem cacheOK_nil : cacheOK [] := by
  intro k v hkv
  simp [lookupA] at hkv

theorem reachable_cacheOK (s : TableState) (h : Reachable s) : cacheOK s.dataCache := by
  induction h with
  | init => exact cacheOK_nil
  | serverArrives s d _ ih => exact cacheOK_serverDataStep s d ih
  | filterChanges s f q _ ih => exact cacheOK_filterChangeStep s f q ih
  | fetchMore s loading isFetching _ ih =>
      unfold fetchMoreStep
      split
      · exact ih
      · exact ih
  | pageChanges s n _ ih => exact ih
  | clears s _ _ => exact cacheOK_nil

/-- C1: the claim that no sequence of operations can make records
accumulated under one filter key appear in the cache entry of a different
filter key fails on the code.  In the concrete trace, the single record
fetched under the key all- is absent from the entry of the key open-
before the filter switch, yet present in it immediately after the switch:
the cache-update effect fires on the key change before the restore
effect and writes the old data of key all- under the new key open-. -/
theorem c1_filter_key_leak :
    lookupA sOne.dataCache "open-" = none ∧
      lookupA sTwo.dataCache "open-" = some [issueA] := by
  constructor
  · decide
  · decide

/-- C2 counterexample: merging the empty page-1 response into a non-empty
accumulated list does not replace the list with the empty response; the
guard on a non-empty server response leaves the stale record in place,
contradicting the claim that the result equals the response exactly. -/
theorem c2_counterexample : mergeServerData [issueA] [] 1 ≠ [] := by decide

/-- C2 amended: a page-1 merge replaces the accumulated records exactly
when the response is non-empty; an empty page-1 response leaves the
previously accumulated records unchanged. -/
theorem c2_page_one_replacement (prev r : List Issue) (h : r ≠ []) :
    mergeServerData prev r 1 = r ∧ mergeServerData prev [] 1 = prev := by
  constructor
  · unfold mergeServerData
    rw [if_pos (List.length_pos.mpr h), if_pos rfl]
  · rfl

/-- Witness for C2 at a concrete non-empty page-1 response over a
non-empty prior accumulation. -/
theorem c2_page_one_replacement_witness :
    ([issueB] ≠ ([] : List Issue)) ∧
      (mergeServerData [issueA] [issueB] 1 = [issueB] ∧
        mergeServerData [issueA] [] 1 = [issueA]) :=
  ⟨by decide, c2_page_one_replacement [issueA] [issueB] (by decide)⟩

/-- C3: for a valid local page index, the fetch-more decision is true
exactly when the index is the last or second-to-last page and the data
length is a positive exact multiple of 100; and on a 47-record page-1
response the decision is false at every local page index and size. -/
theorem c3_needsMoreData_exact (len pageIndex pageSize : Nat)
    (hvalid : pageIndex < pageCount len pageSize) :
    (checkForMoreData false false false len pageIndex pageSize = true ↔
      ((pageIndex + 1 = pageCount len pageSize ∨ pageIndex + 2 = pageCount len pageSize)
        ∧ len % 100 = 0 ∧ 0 < len))
    ∧ (∀ (i ps : Nat), checkForMoreData false false false 47 i ps = false) := by
  constructor
  · unfold checkForMoreData
    simp only [Bool.or_self, Bool.false_or, if_neg, Bool.false_eq_true, not_false_iff,
      Bool.and_eq_true, decide_eq_true_eq, beq_iff_eq]
    constructor
    · rintro ⟨h1, h2, h3⟩
      exact ⟨by omega, h2, h3⟩
    · rintro ⟨h1, h2, h3⟩
      refine ⟨by omega, h2, h3⟩
  · intro i ps
    unfold checkForMoreData
    simp

/-- Witness for C3 at 100 accumulated records, page size 25, local page
index 3 (the last of four pages). -/
theorem c3_needsMoreData_exact_witness :
    (3 < pageCount 100 25) ∧
      ((checkForMoreData false false false 100 3 25 = true ↔
        ((3 + 1 = pageCount 100 25 ∨ 3 + 2 = pageCount 100 25) ∧ 100 % 100 = 0 ∧ 0 < 100))
      ∧ (∀ (i ps : Nat), checkForMoreData false false false 47 i ps = false)) :=
  ⟨by decide, c3_needsMoreData_exact 100 3 25 (by decide)⟩

theorem mergeServerData_nodup {acc page : List Issue} (n : Nat)
    (hacc : (acc.map Issue.id).Nodup) (hpage : (page.map Issue.id).Nodup) :
    ((mergeServerData acc page n).map Issue.id).Nodup := by
  unfold mergeServerData
  by_cases hlen : 0 < page.length
  · rw [if_pos hlen]
    by_cases hp : n = 1
    · rw [if_pos hp]
      exact hpage
    · rw [if_neg hp]
      simp only [List.map_append, List.nodup_append]
      refine ⟨hacc, ?_, ?_⟩
      · exact List.Nodup.sublist (List.Sublist.map Issue.id (List.filter_sublist page)) hpage
      · intro a ha hb
        obtain ⟨r, hr, hid⟩ := List.mem_map.mp hb
        obtain ⟨-, hf⟩ := List.mem_filter.mp hr
        simp only [Bool.not_eq_eq_eq_not, Bool.not_true] at hf
        have : r.id ∉ acc.map Issue.id := by
          intro hmem
          have h2 := List.elem_iff.mpr hmem
          unfold List.contains at hf
          rw [hf] at h2
          exact Bool.false_ne_true h2
        exact this (hid ▸ ha)
  · rw [if_neg hlen]
    exact hacc

theorem mergeRun_nodup (ps : List (List Issue)) :
    ∀ (acc : List Issue) (n : Nat), (acc.map Issue.id).Nodup →
      (∀ p ∈ ps, (p.map Issue.id).Nodup) → ((mergeRun acc n ps).map Issue.id).Nodup := by
  induction ps with
  | nil => intro acc n h _; exact h
  | cons p ps ih =>
      intro acc n h hall
      exact ih _ _ (mergeServerData_nodup n h (hall p (by simp)))
        (fun q hq => hall q (by simp [hq]))

/-- C4: for every sequence of server pages merged through the
accumulation effect (page-1 replacement followed by de-duplicating
appends), if every single page carries pairwise distinct record ids, then
the accumulated list contains each id at most once, whatever the overlap
between pages. -/
theorem c4_dedup_invariant (pages : List (List Issue))
    (h : ∀ p ∈ pages, (p.map Issue.id).Nodup) :
    ((accumulatePages pages).map Issue.id).Nodup :=
  mergeRun_nodup pages [] 1 (by simp) h

/-- Witness for C4 on two overlapping concrete pages. -/
theorem c4_dedup_invariant_witness :
    (∀ p ∈ [[issueA], [issueB, issueA]], (p.map Issue.id).Nodup) ∧
      ((accumulatePages [[issueA], [issueB, issueA]]).map Issue.id).Nodup :=
  ⟨by decide, c4_dedup_invariant [[issueA], [issueB, issueA]] (by decide)⟩

/-- C5 counterexample: an HTTP 404 failure on its first failure IS
retried by the program, contradicting the claim that HTTP 4xx responses
are not retried: handleApiError rethrows it as a plain Error without a
status field, so the retry option never sees the 404 and falls through to
failureCount < 3. -/
theorem c5_counterexample_404_retried :
    effectiveRetry 0
      { responseStatus := some 404, rateLimitRemainingZero := false,
        message := "", hasRequest := true } = true := by decide

/-- C5 amended: because getIssues wraps every failure through
handleApiError into a plain Error whose status field is absent, the retry
option of the query hook never observes an HTTP status, and every failed
request, whatever its original status (4xx including 404 and 429, 5xx) or
lack of one (network errors), is retried while failureCount < 3, i.e. up
to 3 times, with delay min(1000 * 2 ^ attemptIndex, 30000) milliseconds,
starting at 1000 ms and never above 30000 ms.  The status-sensitive 4xx
branch of the retry option is unreachable on this path, and the
429-excepting retryRequest helper is never called. -/
theorem c5_effective_retry_policy (n : Nat) (failure : AxiosFailure) :
    (handleApiError failure).status = none
    ∧ effectiveRetry n failure = decide (n < 3)
    ∧ retryDelay n = min (1000 * 2 ^ n) 30000
    ∧ retryDelay 0 = 1000
    ∧ retryDelay n ≤ 30000 := by
  have hstat : (handleApiError failure).status = none := by
    unfold handleApiError
    split
    · split_ifs <;> rfl
    · split_ifs <;> rfl
  refine ⟨hstat, ?_, rfl, rfl, ?_⟩
  · unfold effectiveRetry
    rw [hstat]
    rfl
  · unfold retryDelay
    exact min_le_right _ _

/-- C6: the position-restore step after a fetch-more merge sends the
table back to the saved index whenever that index is positive and below
the new page count; given that the saved index was captured from the
current index when the fetch was triggered (and the component moves the
index nowhere in between), the active index after the merge equals the
saved index for every still-valid saved index, and an out-of-range saved
index leaves the active index unchanged rather than forcing page 0. -/
theorem c6_position_restore (allLen sp saved tp cur : Nat) :
    (0 < allLen → 1 < sp → 0 < saved → saved < tp →
       restorePageAfterMerge allLen sp false saved tp cur = saved)
    ∧ (cur = saved → saved < tp →
       restorePageAfterMerge allLen sp false saved tp cur = saved)
    ∧ (tp ≤ saved →
       restorePageAfterMerge allLen sp false saved tp cur = cur) := by
  refine ⟨?_, ?_, ?_⟩
  · intro h1 h2 h3 h4
    unfold restorePageAfterMerge
    rw [if_pos ⟨h1, h2, rfl, h3, h4⟩]
  · intro hc _
    subst hc
    unfold restorePageAfterMerge
    exact ite_self cur
  · intro h
    unfold restorePageAfterMerge
    rw [if_neg]
    rintro ⟨-, -, -, -, h5⟩
    omega

/-- Witness for C6: saved index 4 with page count 5 is restored; saved
index 7 with page count 5 leaves the index unchanged. -/
theorem c6_position_restore_witness :
    restorePageAfterMerge 100 2 false 4 5 0 = 4 ∧
      restorePageAfterMerge 100 2 false 7 5 7 = 7 :=
  ⟨(c6_position_restore 100 2 4 5 0).1 (by decide) (by decide) (by decide) (by decide),
   (c6_position_restore 100 2 7 5 7).2.2 (by decide)⟩

/-- C7: the claimed behaviour on a transition to a filter key with no
cache entry (local page index reset to 0, fresh page-1 fetch with cleared
data) fails on the code.  In the concrete trace the key open- has no
entry before the switch, yet after the switch the accumulated data is the
30 records of the key all-, and the local page index is still 1: the
cache-update effect runs first on the key change and plants the old data
under the new key, so the restore branch runs and the pagination-reset
effect sees a (bogus) cache entry and does not reset. -/
theorem c7_new_key_not_fresh :
    lookupA sBefore.dataCache "open-" = none ∧ sBefore.pageIndex = 1 ∧
      sAfter.allData = issuesN 30 ∧ sAfter.pageIndex = 1 ∧ sAfter.serverPage = 1 := by
  refine ⟨by decide, by decide, by decide, by decide, by decide⟩

/-- C8: the client-side projection equals, for all inputs, the projection
written from the words of the specification: the accumulated list
unchanged for empty search text, otherwise exactly the records whose
title, author handle, or some label name contains the search text as a
case-insensitive substring, in the same relative order; determinism is
immediate since the projection is a pure function of its two inputs. -/
theorem c8_projection (recs : List Issue) (s : List Char) :
    filteredData recs s = projectSpec recs s := by
  unfold filteredData projectSpec
  by_cases hr : recs.isEmpty
  · have : recs = [] := List.isEmpty_iff.mp hr
    subst this
    by_cases hs : s.isEmpty <;> simp [hs]
  · by_cases hs : s.isEmpty
    · simp [hr, hs]
    · simp only [hr, hs, if_neg, Bool.false_eq_true, not_false_iff, if_false]
      rfl

/-- C9: in every reachable state of the component, every entry stored in
the filter-key data cache is a non-empty record list; moreover a filter
key whose activation ends with empty accumulated data is always left in
the fresh-fetch configuration with the server page reset to 1. -/
theorem c9_cache_entries_nonempty (s : TableState) (h : Reachable s) :
    cacheOK s.dataCache ∧
      ∀ (f q : String), (filterChangeStep s f q).allData = [] →
        (filterChangeStep s f q).serverPage = 1 :=
  ⟨reachable_cacheOK s h, fun f q hfq => filterChangeStep_fresh s f q hfq⟩

/-- Witness for C9 at the initial state, reachable by definition. -/
theorem c9_cache_entries_nonempty_witness :
    cacheOK initState.dataCache ∧
      ∀ (f q : String), (filterChangeStep initState f q).allData = [] →
        (filterChangeStep initState f q).serverPage = 1 :=
  c9_cache_entries_nonempty initState Reachable.init

/-- C10: the page-change handler moves the 0-based local page index to
n - 1 exactly when the page count is positive and 1 <= n <= page count;
for every other requested page, the index is left unchanged. -/
theorem c10_page_change_guard (n : Int) (tp cur : Nat) :
    (1 ≤ n → n ≤ (tp : Int) → 0 < tp → handlePageChange n tp cur = (n - 1).toNat)
    ∧ (¬ (1 ≤ n ∧ n ≤ (tp : Int) ∧ 0 < tp) → handlePageChange n tp cur = cur) := by
  constructor
  · intro h1 h2 h3
    unfold handlePageChange
    rw [if_pos ⟨h1, h2, h3⟩]
  · intro h
    unfold handlePageChange
    rw [if_neg h]

/-- Witness for C10: requested page 3 of 5 moves the index to 2; the
out-of-range request 9 of 5 leaves the index at 7. -/
theorem c10_page_change_guard_witness :
    handlePageChange 3 5 0 = 2 ∧ handlePageChange 9 5 7 = 7 :=
  ⟨(c10_page_change_guard 3 5 0).1 (by decide) (by decide) (by decide),
   (c10_page_change_guard 9 5 7).2 (by decide)⟩
